import Mathlib

/-!
Verification of the ternary-fission simulation engine core
(`src/cpp/ternary.fission.simulation.engine.cpp`, `src/cpp/physics.utilities.cpp`,
`include/physics.constants.definitions.h`, `include/physics.utilities.h`).

Shallow embedding conventions:
* C++ `double` arithmetic is embedded as exact rational arithmetic (`ℚ`).
  Claims that are purely about floating-point rounding noise are out of scope;
  every claim settled here is decided by the algebraic / integer structure of
  the code, which the rational embedding reproduces faithfully.
* `static_cast<int>(x)` (truncation toward zero) is `cppTrunc`;
  `static_cast<size_t>(x)` on a nonnegative value is `Int.toNat ∘ Int.floor`.
* Transcendental quantities the code obtains from `sqrt`/`log`/`sin`/`cos`
  and from the thread-local RNG are oracle inputs of the embedded functions:
  the algebra that combines them is translated from the source, the sampled
  or transcendental values themselves are parameters.
* Wall-clock time (used by `dissipateEnergyField`) is likewise an explicit
  parameter: one elapsed-seconds value per dissipation round.
* Event ids, field ids and timestamps are global side effects irrelevant to
  every claim below and are not modelled.
-/

namespace TernaryFission

/-- Truncation toward zero, the semantics of C++ `static_cast<int>` on an
in-range `double`. -/
def cppTrunc (q : ℚ) : ℤ :=
  if 0 ≤ q then ⌊q⌋ else -⌊-q⌋

/-- Alpha particle rest mass in AMU, `ALPHA_PARTICLE_MASS` from
`physics.constants.definitions.h`. -/
def ALPHA_PARTICLE_MASS : ℚ := 4002603 / 1000000

/-- Simple 3-D vector, `struct Vector3` from `physics.constants.definitions.h`. -/
structure Vector3 where
  x : ℚ
  y : ℚ
  z : ℚ
deriving DecidableEq, Repr

/-- Zero vector, the `Vector3` default constructor. -/
def Vector3.zero : Vector3 := ⟨0, 0, 0⟩

/-- Squared Euclidean norm of a `Vector3`.  The source stores
`sqrt` of this quantity; all comparisons we need are monotone in it. -/
def Vector3.normSq (v : Vector3) : ℚ := v.x * v.x + v.y * v.y + v.z * v.z

/-- Fission fragment, `struct FissionFragment` from
`physics.constants.definitions.h` (binding/excitation energies and the
position vector are never read by the code under verification and are
omitted; each remaining field mirrors the C++ member of the same name). -/
structure FissionFragment where
  mass : ℚ
  atomic_number : ℤ
  mass_number : ℤ
  kinetic_energy : ℚ
  momentum : Vector3
  half_life : ℚ
deriving DecidableEq, Repr

/-- Default-constructed fragment (all members zeroed). -/
def FissionFragment.default : FissionFragment :=
  ⟨0, 0, 0, 0, Vector3.zero, 0⟩

/-- Ternary fission event, `struct TernaryFissionEvent` from
`physics.constants.definitions.h`.  The C++ member
`momentum_conservation_error` holds `sqrt` of `momentum_error_sq`; we store
the square, which determines it (both are nonnegative). -/
structure TernaryFissionEvent where
  light_fragment : FissionFragment
  heavy_fragment : FissionFragment
  alpha_particle : FissionFragment
  total_kinetic_energy : ℚ
  q_value : ℚ
  binding_energy_released : ℚ
  momentum_conserved : Bool
  energy_conserved : Bool
  energy_conservation_error : ℚ
  momentum_error_sq : ℚ
  mass_number_conserved : Bool
  charge_conserved : Bool
deriving DecidableEq, Repr

/-- Oracle inputs consumed by one `generateFissionEvent` call: the value
drawn from `normalRandom(1.4, 0.15)` for the mass split, the three momentum
magnitudes `sqrt(2·m·AMU_TO_KG·KE·MEV_TO_JOULES)` computed inside
`applyConservationLaws` (irrational for generic masses, hence oracles), and
the sampled heavy-fragment direction unit vector
`(sinφ·cosθ, sin φ·sinθ, cosφ)`. -/
structure GenOracle where
  mass_split : ℚ
  p_heavy : ℚ
  p_light : ℚ
  p_alpha : ℚ
  dir : Vector3
deriving DecidableEq, Repr

/-- Momentum balancing from `applyConservationLaws`
(`physics.utilities.cpp:384-427`): the heavy fragment receives magnitude
`p_heavy` along the sampled direction, the alpha particle receives the
fraction `p_alpha/(p_light+p_alpha)` of the opposite vector, and the light
fragment receives the remainder, i.e. the negative vector sum of the other
two.  The function also unconditionally sets the energy/momentum conserved
flags and zero errors (later recomputed by `generateFissionEvent`). -/
def applyConservationLaws (o : GenOracle) (ev : TernaryFissionEvent) :
    TernaryFissionEvent :=
  let heavyP : Vector3 := ⟨o.p_heavy * o.dir.x, o.p_heavy * o.dir.y, o.p_heavy * o.dir.z⟩
  let remainingP : Vector3 := ⟨-heavyP.x, -heavyP.y, -heavyP.z⟩
  let alpha_fraction : ℚ := o.p_alpha / (o.p_light + o.p_alpha)
  let alphaP : Vector3 :=
    ⟨alpha_fraction * remainingP.x, alpha_fraction * remainingP.y, alpha_fraction * remainingP.z⟩
  let lightP : Vector3 :=
    ⟨remainingP.x - alphaP.x, remainingP.y - alphaP.y, remainingP.z - alphaP.z⟩
  { ev with
    heavy_fragment := { ev.heavy_fragment with momentum := heavyP }
    alpha_particle := { ev.alpha_particle with momentum := alphaP }
    light_fragment := { ev.light_fragment with momentum := lightP }
    energy_conserved := true
    momentum_conserved := true
    energy_conservation_error := 0
    momentum_error_sq := 0 }

/-- Event generation, `TernaryFissionSimulationEngine::generateFissionEvent`
(`ternary.fission.simulation.engine.cpp:657-741`).  Notes:
* the local `parent_mass_number = static_cast<int>(parent_mass)` is dead code
  in the source and omitted;
* `generateRandomMomentum` is called on all three fragments but every
  component it writes is overwritten by `applyConservationLaws`, so those
  calls have no observable effect and are omitted;
* `mass_number_conserved` and `charge_conserved` are never assigned anywhere
  in the source, so they keep the default-constructor value `false`. -/
def generateFissionEvent (parent_mass excitation_energy : ℚ) (o : GenOracle) :
    TernaryFissionEvent :=
  let parent_atomic_number : ℤ := 92
  let total_fragment_mass := parent_mass
  let alpha0 : FissionFragment :=
    { FissionFragment.default with
      mass := ALPHA_PARTICLE_MASS, atomic_number := 2, mass_number := 4
      half_life := 10 ^ 100 }
  let remaining_mass := total_fragment_mass - ALPHA_PARTICLE_MASS
  let light_mass := remaining_mass / (1 + o.mass_split)
  let heavy_mass := remaining_mass - light_mass
  let z_share : ℚ := ((parent_atomic_number : ℚ) - 2) / remaining_mass
  let light_z := cppTrunc (light_mass * z_share)
  let heavy_z := parent_atomic_number - 2 - light_z
  let light_a := cppTrunc (light_mass + 1 / 2)
  let heavy_a := cppTrunc (heavy_mass + 1 / 2)
  let q_value := excitation_energy +
    (parent_mass - heavy_mass - light_mass - ALPHA_PARTICLE_MASS) * (9315 / 10)
  let total_ke := q_value
  let alpha_ke := if 0 < total_ke then total_ke * (1 / 10) else 0
  let light_ke := if 0 < total_ke then total_ke * (4 / 10) else 0
  let heavy_ke := if 0 < total_ke then total_ke * (5 / 10) else 0
  let ev0 : TernaryFissionEvent :=
    { light_fragment :=
        { FissionFragment.default with
          mass := light_mass, atomic_number := light_z, mass_number := light_a
          kinetic_energy := light_ke }
      heavy_fragment :=
        { FissionFragment.default with
          mass := heavy_mass, atomic_number := heavy_z, mass_number := heavy_a
          kinetic_energy := heavy_ke }
      alpha_particle := { alpha0 with kinetic_energy := alpha_ke }
      total_kinetic_energy := alpha_ke + light_ke + heavy_ke
      q_value := q_value
      binding_energy_released := q_value - (alpha_ke + light_ke + heavy_ke)
      momentum_conserved := false
      energy_conserved := false
      energy_conservation_error := 0
      momentum_error_sq := 0
      mass_number_conserved := false
      charge_conserved := false }
  let ev1 := applyConservationLaws o ev0
  let e_err := |ev1.q_value - ev1.total_kinetic_energy|
  let total_px := ev1.heavy_fragment.momentum.x + ev1.light_fragment.momentum.x +
    ev1.alpha_particle.momentum.x
  let total_py := ev1.heavy_fragment.momentum.y + ev1.light_fragment.momentum.y +
    ev1.alpha_particle.momentum.y
  let total_pz := ev1.heavy_fragment.momentum.z + ev1.light_fragment.momentum.z +
    ev1.alpha_particle.momentum.z
  let p_err_sq := total_px * total_px + total_py * total_py + total_pz * total_pz
  { ev1 with
    energy_conservation_error := e_err
    energy_conserved := decide (e_err < 1 / 1000)
    momentum_error_sq := p_err_sq
    -- source: `momentum_conservation_error < 1e-6` with the error equal to
    -- the square root of `p_err_sq`, equivalent to this squared comparison
    momentum_conserved := decide (p_err_sq < 1 / 10 ^ 12) }

/-- Energy field, `struct EnergyField` from `physics.constants.definitions.h`.
`memory_ptr` is embedded as a Bool recording whether the backing buffer is
present (the buffer's byte contents are never read by any claim).  The
struct has no dissipation-round counter of any kind. -/
structure EnergyField where
  energy_mev : ℚ
  memory_bytes : ℕ
  cpu_cycles : ℕ
  entropy_factor : ℚ
  dissipation_rate : ℚ
  stability_factor : ℚ
  interaction_strength : ℚ
  memory_ptr : Bool
deriving DecidableEq, Repr

/-- Runtime configuration, `struct EnergyFieldConfig` from
`physics.utilities.h:246-256` (the fields read by `createEnergyField`). -/
structure EnergyFieldConfig where
  memory_per_mev : ℚ
  cpu_cycles_per_mev : ℚ
  dissipation_rate_default : ℚ
  use_memory_pool : Bool
deriving DecidableEq, Repr

/-- Default configuration values: `ENERGY_TO_MEMORY_SCALE = 1.0e6`,
`ENERGY_TO_CPU_CYCLES = 1.0e9`, `dissipation_rate_default = 0.01`,
`use_memory_pool = true`. -/
def defaultConfig : EnergyFieldConfig :=
  { memory_per_mev := 10 ^ 6
    cpu_cycles_per_mev := 10 ^ 9
    dissipation_rate_default := 1 / 100
    use_memory_pool := true }

/-- Entropy estimate, `calculateEntropy` (`physics.utilities.cpp:607-625`).
The transcendental core `(bytes·ln 256/1e6 + ln cycles)/100` is the oracle
parameter `ent`; the zero case and the clamp to `[0, 1]` are the code's. -/
def calculateEntropy (ent : ℕ → ℕ → ℚ) (memory_bytes : ℕ) (cpu_cycles : ℕ) : ℚ :=
  if memory_bytes = 0 ∧ cpu_cycles = 0 then 0
  else max 0 (min 1 (ent memory_bytes cpu_cycles))

/-- Field creation, free function `createEnergyField`
(`physics.utilities.cpp:453-491`).  `alloc_ok` is the outcome of
`std::malloc`: C++ `malloc` reports failure by returning a null pointer and
never throws, so the `catch` branch that would zero `memory_bytes` is
unreachable; on the null-return path `memory_bytes` keeps its computed
value and only `memory_ptr` stays empty. -/
def createEnergyField (cfg : EnergyFieldConfig) (ent : ℕ → ℕ → ℚ)
    (energy_mev : ℚ) (alloc_ok : Bool) : EnergyField :=
  let memory_bytes : ℕ := (⌊energy_mev * cfg.memory_per_mev⌋).toNat
  let cpu_cycles : ℕ := (⌊energy_mev * cfg.cpu_cycles_per_mev⌋).toNat
  let entropy_factor := calculateEntropy ent memory_bytes cpu_cycles
  { energy_mev := energy_mev
    memory_bytes := memory_bytes
    cpu_cycles := cpu_cycles
    entropy_factor := entropy_factor
    dissipation_rate := cfg.dissipation_rate_default
    stability_factor := 1 - entropy_factor
    interaction_strength := energy_mev / 1000
    memory_ptr := cfg.use_memory_pool && decide (0 < memory_bytes) && alloc_ok }

/-- One dissipation round, free function `dissipateEnergyField(EnergyField&)`
(`physics.utilities.cpp:497-523`).  `t` is the elapsed time in seconds since
field creation (`time_diff.count() / 1000.0`), an external input.  The
buffer-scrambling call `applyEntropyToMemory` touches only buffer contents,
which no claim observes. -/
def dissipateOnce (f : EnergyField) (t : ℚ) : EnergyField :=
  if f.energy_mev ≤ 0 then f
  else
    let dissipation_amount := f.energy_mev * f.dissipation_rate * (1 + f.entropy_factor) * t
    let entropy1 := min 1 (f.entropy_factor + (1 / 1000) * t)
    { f with
      energy_mev := max 0 (f.energy_mev - dissipation_amount)
      entropy_factor := entropy1
      stability_factor := 1 - entropy1 }

/-- Multi-round dissipation,
`TernaryFissionSimulationEngine::dissipateEnergyField(EnergyField&, int)`
(`ternary.fission.simulation.engine.cpp:390-397`): a plain loop of
`rounds` single-round calls that breaks early once the energy reaches 0.
One elapsed-time oracle per iteration; the list length is `rounds`.
The loop consults no round counter and imposes no cumulative cap. -/
def engineDissipate (f : EnergyField) (ts : List ℚ) : EnergyField :=
  match ts with
  | [] => f
  | t :: rest =>
      let f1 := dissipateOnce f t
      if f1.energy_mev ≤ 0 then f1 else engineDissipate f1 rest

/-! ### Worker pool and continuous-generator control models

The concurrency claims (C4, C9) are settled over small transition systems
whose individual steps are translated from the corresponding source
functions; the mutexes in the source linearize those steps, so an
interleaved execution is a sequence of such steps. -/

/-- Shared counters and queue seen by the worker pool.  Queue elements are
abstract event tags. -/
structure WorkerState where
  queue : List ℕ
  total_events_simulated : ℕ
  total_energy_fields_created : ℕ
deriving DecidableEq, Repr

/-- One worker-loop iteration that found the queue nonempty
(`workerThreadFunction`, `ternary.fission.simulation.engine.cpp:773-798`):
dequeue exactly one event under the queue mutex, then run
`processFissionEvent` (`:747-767`), which creates an energy field and
increments `total_energy_fields_created` — it never touches
`total_events_simulated`, which is incremented only by the direct
`simulateTernaryFissionEvent` path (`:132-154`). -/
def workerStep (s : WorkerState) : WorkerState :=
  match s.queue with
  | [] => s
  | _ :: rest =>
      { s with
        queue := rest
        total_energy_fields_created := s.total_energy_fields_created + 1 }

/-- An interleaved run of the worker pool: the schedule lists which worker
wakes at each step (the queue mutex serializes dequeues, so the effect of a
step does not depend on the worker id). -/
def runWorkers (s : WorkerState) (schedule : List ℕ) : WorkerState :=
  match schedule with
  | [] => s
  | _ :: rest => runWorkers (workerStep s) rest

/-- Direct synchronous path `simulateTernaryFissionEvent`
(`ternary.fission.simulation.engine.cpp:132-154`): runs
`processFissionEvent` on the caller's thread and then increments
`total_events_simulated`. -/
def simulateStep (s : WorkerState) : WorkerState :=
  { s with
    total_energy_fields_created := s.total_energy_fields_created + 1
    total_events_simulated := s.total_events_simulated + 1 }

/-- Control state of the continuous generator and its stop protocol. -/
structure EngineCtl where
  queue : List ℕ
  continuous_active : Bool
  simulation_running : Bool
  gen_alive : Bool
  stop_joining : Bool
  stop_returned : Bool
deriving DecidableEq, Repr

/-- Atomic steps of the continuous-mode subsystem.  `genProduce` is one
trigger of `continuousGeneratorFunction` (`:800-835`); `genExit` is the
generator observing the cleared flag and leaving its loop; `workerTake` is a
worker dequeue; `stopBegin`/`stopJoin` are the two phases of
`stopContinuousSimulation` (`ternary.fission.simulation.engine.cpp:560-577`),
which clears the flags and joins the generator thread — it performs no
operation on the event queue and does not wait for it to drain. -/
inductive CtlAct where
  | genProduce : CtlAct
  | genExit : CtlAct
  | workerTake : CtlAct
  | stopBegin : CtlAct
  | stopJoin : CtlAct
deriving DecidableEq, Repr

/-- Guarded small-step semantics of the control model; `none` means the
action is not enabled in the given state. -/
def ctlStep (s : EngineCtl) (a : CtlAct) : Option EngineCtl :=
  match a with
  | CtlAct.genProduce =>
      if s.gen_alive && s.continuous_active then
        some { s with queue := s.queue ++ [0] }
      else none
  | CtlAct.genExit =>
      if s.gen_alive && !s.continuous_active then
        some { s with gen_alive := false }
      else none
  | CtlAct.workerTake =>
      match s.queue with
      | [] => none
      | _ :: rest => some { s with queue := rest }
  | CtlAct.stopBegin =>
      if s.continuous_active then
        some { s with continuous_active := false, simulation_running := false,
                      stop_joining := true }
      else some { s with stop_returned := true }
  | CtlAct.stopJoin =>
      if s.stop_joining && !s.gen_alive then
        some { s with stop_joining := false, stop_returned := true }
      else none

/-- Run of the control model along a list of actions. -/
def ctlRun (s : EngineCtl) (acts : List CtlAct) : Option EngineCtl :=
  match acts with
  | [] => some s
  | a :: rest =>
      match ctlStep s a with
      | none => none
      | some s1 => ctlRun s1 rest

/-! ### Concrete values used by counterexamples and witnesses -/

/-- Oracle draw with `normalRandom(1.4, 0.15)` returning exactly 1.4 and
momentum magnitudes close to those of a real `simulate(235.0, 6.5)` event
(the true values are irrational square roots). -/
def genOracleA : GenOracle := ⟨7 / 5, 821 / 100, 31 / 5, 63 / 100, ⟨0, 0, 1⟩⟩

/-- Oracle draw whose mass split makes `light_fragment.mass` exactly
96.498 for a 235 AMU parent: both fragment masses then round down, so the
mass numbers sum to 234.  The split value 134499397/96498000 ≈ 1.3938 is
well inside the support (and within one standard deviation of the mean) of
`normalRandom(1.4, 0.15)`. -/
def genOracleB : GenOracle :=
  ⟨134499397 / 96498000, 821 / 100, 31 / 5, 63 / 100, ⟨0, 0, 1⟩⟩

/-- A 1 MeV energy field with the default dissipation rate 0.01 and zero
entropy, as produced by the field allocator for a small event. -/
def fieldA : EnergyField := ⟨1, 0, 0, 0, 1 / 100, 1, 0, false⟩

/-- Entropy oracle standing in for the log-based core of `calculateEntropy`
in concrete witnesses (its value is irrelevant to every settled claim). -/
def entA : ℕ → ℕ → ℚ := fun _ _ => 0

/-- Control state right after `startContinuousSimulation`: generator thread
alive, flags set, queue empty. -/
def ctlStartState : EngineCtl := ⟨[], true, true, true, false, false⟩

/-- Interleaving in which the generator enqueues one event, `stop_continuous`
is called, the generator observes the cleared flag and exits, and the join
completes — all before any worker wakes up. -/
def ctlStopTrace : List CtlAct :=
  [CtlAct.genProduce, CtlAct.stopBegin, CtlAct.genExit, CtlAct.stopJoin]

/-- Field invariant threaded through dissipation: nonnegative energy,
dissipation rate and entropy factor.  `createEnergyField` establishes it for
every nonnegative energy and configuration (see `createEnergyField_inv`). -/
def FieldInv (f : EnergyField) : Prop :=
  0 ≤ f.energy_mev ∧ 0 ≤ f.dissipation_rate ∧ 0 ≤ f.entropy_factor

instance (f : EnergyField) : Decidable (FieldInv f) := by
  unfold FieldInv; infer_instance

/-! ## Helper lemmas -/

theorem cppTrunc_eq_floor (q : ℚ) (h : 0 ≤ q) : cppTrunc q = ⌊q⌋ := by
  simp [cppTrunc, h]

/-- Rounding each of two summands half-up differs from rounding their sum
shifted by the alpha-mass fraction 0.502603 by at most one. -/
theorem floor_half_pair_bound (L H : ℚ) :
    |⌊L + 1 / 2⌋ + ⌊H + 1 / 2⌋ - ⌊L + H + 502603 / 1000000⌋| ≤ 1 := by
  have h1 : ((⌊L + 1 / 2⌋ : ℤ) : ℚ) ≤ L + 1 / 2 := Int.floor_le _
  have h2 : ((⌊H + 1 / 2⌋ : ℤ) : ℚ) ≤ H + 1 / 2 := Int.floor_le _
  have h3 : L + 1 / 2 < ⌊L + 1 / 2⌋ + 1 := Int.lt_floor_add_one _
  have h4 : H + 1 / 2 < ⌊H + 1 / 2⌋ + 1 := Int.lt_floor_add_one _
  have h5 : ((⌊L + H + 502603 / 1000000⌋ : ℤ) : ℚ) ≤ L + H + 502603 / 1000000 :=
    Int.floor_le _
  have h6 : L + H + 502603 / 1000000 < ⌊L + H + 502603 / 1000000⌋ + 1 :=
    Int.lt_floor_add_one _
  have hub : ((⌊L + 1 / 2⌋ + ⌊H + 1 / 2⌋ - ⌊L + H + 502603 / 1000000⌋ : ℤ) : ℚ) < 2 := by
    push_cast
    linarith
  have hlb : (-2 : ℚ) < ((⌊L + 1 / 2⌋ + ⌊H + 1 / 2⌋ - ⌊L + H + 502603 / 1000000⌋ : ℤ) : ℚ) := by
    push_cast
    linarith
  have hub' : (⌊L + 1 / 2⌋ + ⌊H + 1 / 2⌋ - ⌊L + H + 502603 / 1000000⌋ : ℤ) < 2 := by
    exact_mod_cast hub
  have hlb' : (-2 : ℤ) < ⌊L + 1 / 2⌋ + ⌊H + 1 / 2⌋ - ⌊L + H + 502603 / 1000000⌋ := by
    exact_mod_cast hlb
  rw [abs_le]
  omega

/-! ## Claims -/

/-- Claim C1, counterexample.  At the valid input `(235.0, 6.5)` with the
mass-split draw ≈1.3938 (well inside the support of `normalRandom(1.4,
0.15)`), the light fragment's mass is exactly 96.498 and the heavy
fragment's 134.499397: both round down, so the three mass numbers sum to
234, not `round(235.0) = 235`. -/
theorem C1_mass_sum_counterexample :
    (generateFissionEvent 235 (13 / 2) genOracleB).light_fragment.mass_number +
      (generateFissionEvent 235 (13 / 2) genOracleB).heavy_fragment.mass_number +
      (generateFissionEvent 235 (13 / 2) genOracleB).alpha_particle.mass_number ≠
      ⌊(235 : ℚ) + 1 / 2⌋ := by
  norm_num [generateFissionEvent, applyConservationLaws, cppTrunc,
    ALPHA_PARTICLE_MASS, genOracleB]

/-- Claim C1, amended: for every input the three atomic numbers sum exactly
to the parent atomic number 92; and whenever both fragment masses are
nonnegative (they are negative for parent masses below the alpha mass
4.002603, where `static_cast<int>` truncates toward zero instead of
rounding half-up), the three mass numbers (each fragment mass rounded
half-up, plus 4 for the alpha) sum to within one of `round(parent_mass)`,
with exact equality not guaranteed because the two fragment masses are
rounded separately. -/
theorem C1_charge_sum_and_mass_bound (pm ex : ℚ) (o : GenOracle) :
    (generateFissionEvent pm ex o).light_fragment.atomic_number +
      (generateFissionEvent pm ex o).heavy_fragment.atomic_number +
      (generateFissionEvent pm ex o).alpha_particle.atomic_number = 92 ∧
    (0 ≤ (generateFissionEvent pm ex o).light_fragment.mass →
      0 ≤ (generateFissionEvent pm ex o).heavy_fragment.mass →
      |(generateFissionEvent pm ex o).light_fragment.mass_number +
        (generateFissionEvent pm ex o).heavy_fragment.mass_number +
        (generateFissionEvent pm ex o).alpha_particle.mass_number -
        ⌊pm + 1 / 2⌋| ≤ 1) := by
  constructor
  · simp only [generateFissionEvent, applyConservationLaws]
    ring
  · simp only [generateFissionEvent, applyConservationLaws]
    intro hL hH
    set L := (pm - ALPHA_PARTICLE_MASS) / (1 + o.mass_split) with hLdef
    set H := pm - ALPHA_PARTICLE_MASS - L with hHdef
    rw [cppTrunc_eq_floor (L + 1 / 2) (by linarith),
      cppTrunc_eq_floor (H + 1 / 2) (by linarith)]
    have key := floor_half_pair_bound L H
    have hsum : pm + 1 / 2 = L + H + 502603 / 1000000 + ((4 : ℤ) : ℚ) := by
      rw [hHdef]
      norm_num [ALPHA_PARTICLE_MASS]
      ring
    rw [hsum, Int.floor_add_int]
    have hre : ⌊L + 1 / 2⌋ + ⌊H + 1 / 2⌋ + 4 - (⌊L + H + 502603 / 1000000⌋ + 4) =
        ⌊L + 1 / 2⌋ + ⌊H + 1 / 2⌋ - ⌊L + H + 502603 / 1000000⌋ := by ring
    rw [hre]
    exact key

/-- Claim C1, witness for the amended theorem at `simulate(235.0, 6.5)` with
the mass-split draw exactly 1.4. -/
theorem C1_charge_sum_and_mass_bound_witness :
    0 ≤ (generateFissionEvent 235 (13 / 2) genOracleA).light_fragment.mass ∧
    0 ≤ (generateFissionEvent 235 (13 / 2) genOracleA).heavy_fragment.mass ∧
    |(generateFissionEvent 235 (13 / 2) genOracleA).light_fragment.mass_number +
      (generateFissionEvent 235 (13 / 2) genOracleA).heavy_fragment.mass_number +
      (generateFissionEvent 235 (13 / 2) genOracleA).alpha_particle.mass_number -
      ⌊(235 : ℚ) + 1 / 2⌋| ≤ 1 :=
  ⟨by norm_num [generateFissionEvent, applyConservationLaws, ALPHA_PARTICLE_MASS, genOracleA],
   by norm_num [generateFissionEvent, applyConservationLaws, ALPHA_PARTICLE_MASS, genOracleA],
   (C1_charge_sum_and_mass_bound 235 (13 / 2) genOracleA).2
     (by norm_num [generateFissionEvent, applyConservationLaws, ALPHA_PARTICLE_MASS, genOracleA])
     (by norm_num [generateFissionEvent, applyConservationLaws, ALPHA_PARTICLE_MASS, genOracleA])⟩

/-- Claim C5 (code bug): at the failing input `simulate(235.0, 6.5)` with a
mass-split draw of exactly 1.4, the generated event does satisfy both
conservation conditions (`ΣA = round(235) = 235` and `ΣZ = 92`), yet
`mass_number_conserved` and `charge_conserved` are `false`: no code in the
repository ever assigns these struct members, so they keep the
default-constructor value, contradicting the in-repo documentation of
`verifyConservationLaws` ("We check energy, momentum, mass, and charge
conservation"). -/
theorem C5_conservation_flags_never_set :
    (generateFissionEvent 235 (13 / 2) genOracleA).light_fragment.mass_number +
        (generateFissionEvent 235 (13 / 2) genOracleA).heavy_fragment.mass_number +
        (generateFissionEvent 235 (13 / 2) genOracleA).alpha_particle.mass_number =
        ⌊(235 : ℚ) + 1 / 2⌋ ∧
    (generateFissionEvent 235 (13 / 2) genOracleA).light_fragment.atomic_number +
        (generateFissionEvent 235 (13 / 2) genOracleA).heavy_fragment.atomic_number +
        (generateFissionEvent 235 (13 / 2) genOracleA).alpha_particle.atomic_number = 92 ∧
    (generateFissionEvent 235 (13 / 2) genOracleA).mass_number_conserved = false ∧
    (generateFissionEvent 235 (13 / 2) genOracleA).charge_conserved = false := by
  refine ⟨?_, ?_, rfl, rfl⟩
  · norm_num [generateFissionEvent, applyConservationLaws, cppTrunc,
      ALPHA_PARTICLE_MASS, genOracleA]
  · norm_num [generateFissionEvent, applyConservationLaws, cppTrunc,
      ALPHA_PARTICLE_MASS, genOracleA]

/-- Claim C6, counterexample.  The claim asserts two fragments carry
independently sampled isotropic momenta of magnitude `√(2·m·KE)` and only
the third is derived.  At a concrete generated event whose sampled heavy
direction is the unit vector (0,0,1), the alpha and light momenta BOTH
differ from their sampled magnitudes (they are anti-parallel rescalings of
the heavy momentum), so at most one fragment — the heavy one — carries a
sampled momentum. -/
theorem C6_momentum_two_sampled_counterexample :
    genOracleA.dir.normSq = 1 ∧
    (generateFissionEvent 235 (13 / 2) genOracleA).heavy_fragment.momentum.normSq =
      genOracleA.p_heavy * genOracleA.p_heavy ∧
    (generateFissionEvent 235 (13 / 2) genOracleA).alpha_particle.momentum.normSq ≠
      genOracleA.p_alpha * genOracleA.p_alpha ∧
    (generateFissionEvent 235 (13 / 2) genOracleA).light_fragment.momentum.normSq ≠
      genOracleA.p_light * genOracleA.p_light := by
  refine ⟨by norm_num [genOracleA, Vector3.normSq], ?_, ?_, ?_⟩ <;>
    norm_num [generateFissionEvent, applyConservationLaws, Vector3.normSq,
      ALPHA_PARTICLE_MASS, genOracleA]

/-- Claim C6, amended: `applyConservationLaws` samples a direction for the
heavy fragment only and splits the opposite momentum between the alpha and
light fragments, the light fragment receiving exactly the negative vector
sum of the other two; consequently the three momenta of every generated
event sum to the zero vector, the momentum conservation error is exactly
zero, and the event is flagged momentum-conserved. -/
theorem C6_momentum_sum_zero (pm ex : ℚ) (o : GenOracle) :
    ((generateFissionEvent pm ex o).light_fragment.momentum.x =
      -((generateFissionEvent pm ex o).heavy_fragment.momentum.x +
        (generateFissionEvent pm ex o).alpha_particle.momentum.x) ∧
     (generateFissionEvent pm ex o).light_fragment.momentum.y =
      -((generateFissionEvent pm ex o).heavy_fragment.momentum.y +
        (generateFissionEvent pm ex o).alpha_particle.momentum.y) ∧
     (generateFissionEvent pm ex o).light_fragment.momentum.z =
      -((generateFissionEvent pm ex o).heavy_fragment.momentum.z +
        (generateFissionEvent pm ex o).alpha_particle.momentum.z)) ∧
    (generateFissionEvent pm ex o).momentum_error_sq = 0 ∧
    (generateFissionEvent pm ex o).momentum_conserved = true := by
  have hflag : (generateFissionEvent pm ex o).momentum_conserved =
      decide ((generateFissionEvent pm ex o).momentum_error_sq < 1 / 10 ^ 12) := rfl
  have hsq : (generateFissionEvent pm ex o).momentum_error_sq = 0 := by
    simp only [generateFissionEvent, applyConservationLaws]
    ring
  refine ⟨⟨?_, ?_, ?_⟩, hsq, ?_⟩
  · simp only [generateFissionEvent, applyConservationLaws]
    ring
  · simp only [generateFissionEvent, applyConservationLaws]
    ring
  · simp only [generateFissionEvent, applyConservationLaws]
    ring
  · rw [hflag, hsq]
    norm_num

/-- Claim C7, counterexample.  When `std::malloc` fails it returns a null
pointer (it does not throw), and on that path `createEnergyField` leaves
`memory_bytes` at its computed value: for `createEnergyField(100.0)` with a
failed allocation the buffer reference is empty but `memory_bytes` is
100000000, not zero as the claim states. -/
theorem C7_alloc_failure_counterexample :
    (createEnergyField defaultConfig entA 100 false).memory_ptr = false ∧
    (createEnergyField defaultConfig entA 100 false).memory_bytes ≠ 0 ∧
    (createEnergyField defaultConfig entA 100 false).memory_bytes = 100000000 := by
  refine ⟨by simp [createEnergyField], ?_, ?_⟩ <;>
    · norm_num [createEnergyField, defaultConfig, entA]
      try decide

/-- Claim C7, amended: if allocation fails, `createEnergyField` still
returns a field (no exception escapes), the buffer reference is empty, and
every other bookkeeping member — including `memory_bytes`, which keeps its
computed nonzero size — has exactly the value it would have had on a
successful allocation. -/
theorem C7_alloc_failure_degraded (cfg : EnergyFieldConfig) (ent : ℕ → ℕ → ℚ) (e : ℚ) :
    (createEnergyField cfg ent e false).memory_ptr = false ∧
    (createEnergyField cfg ent e false).memory_bytes =
      (createEnergyField cfg ent e true).memory_bytes ∧
    (createEnergyField cfg ent e false).cpu_cycles =
      (createEnergyField cfg ent e true).cpu_cycles ∧
    (createEnergyField cfg ent e false).energy_mev =
      (createEnergyField cfg ent e true).energy_mev ∧
    (createEnergyField cfg ent e false).entropy_factor =
      (createEnergyField cfg ent e true).entropy_factor ∧
    (createEnergyField cfg ent e false).dissipation_rate =
      (createEnergyField cfg ent e true).dissipation_rate ∧
    (createEnergyField cfg ent e false).stability_factor =
      (createEnergyField cfg ent e true).stability_factor ∧
    (createEnergyField cfg ent e false).interaction_strength =
      (createEnergyField cfg ent e true).interaction_strength := by
  simp [createEnergyField]

/-- Claim C8, counterexample.  The `static_cast<size_t>` in
`createEnergyField` truncates, so `memory_bytes` is the floor of
`energy_mev × memory_per_mev`, not that product: at the valid field energy
1.5e-6 MeV the product is 1.5 while `memory_bytes` is 1. -/
theorem C8_truncation_counterexample :
    ((createEnergyField defaultConfig entA (3 / 2000000) true).memory_bytes : ℚ) ≠
      3 / 2000000 * defaultConfig.memory_per_mev := by
  norm_num [createEnergyField, defaultConfig, entA]

/-- Claim C8, amended: with the default scaling configuration,
`createEnergyField(100.0)` yields `memory_bytes = 100000000` and
`cpu_cycles = 100000000000`; in general the two counters are the floor
(size_t truncation) of `energy_mev` times the per-MeV constant, equal to
the exact product whenever that product is an integer. -/
theorem C8_resource_scaling (ent : ℕ → ℕ → ℚ) (ok : Bool) (e : ℚ) (he : 0 ≤ e) :
    ((createEnergyField defaultConfig ent e ok).memory_bytes : ℤ) = ⌊e * 10 ^ 6⌋ ∧
    ((createEnergyField defaultConfig ent e ok).cpu_cycles : ℤ) = ⌊e * 10 ^ 9⌋ ∧
    ((e * 10 ^ 6).den = 1 →
      ((createEnergyField defaultConfig ent e ok).memory_bytes : ℚ) = e * 10 ^ 6) ∧
    ((e * 10 ^ 9).den = 1 →
      ((createEnergyField defaultConfig ent e ok).cpu_cycles : ℚ) = e * 10 ^ 9) ∧
    (createEnergyField defaultConfig ent 100 ok).memory_bytes = 100000000 ∧
    (createEnergyField defaultConfig ent 100 ok).cpu_cycles = 100000000000 := by
  have hm : (0 : ℚ) ≤ e * 10 ^ 6 := by positivity
  have hc : (0 : ℚ) ≤ e * 10 ^ 9 := by positivity
  have hmf : (0 : ℤ) ≤ ⌊e * 10 ^ 6⌋ := Int.floor_nonneg.mpr hm
  have hcf : (0 : ℤ) ≤ ⌊e * 10 ^ 9⌋ := Int.floor_nonneg.mpr hc
  refine ⟨?_, ?_, ?_, ?_, ?_, ?_⟩
  · simp [createEnergyField, defaultConfig, Int.toNat_of_nonneg hmf]
  · simp [createEnergyField, defaultConfig, Int.toNat_of_nonneg hcf]
  · intro hden
    have h1 : ((e * 10 ^ 6).num : ℚ) = e * 10 ^ 6 := by
      rw [← Rat.den_eq_one_iff]
      exact hden
    have h2 : ⌊e * 10 ^ 6⌋ = (e * 10 ^ 6).num := by
      conv_lhs => rw [← h1, Int.floor_intCast]
    have h3 : (((e * 10 ^ 6).num.toNat : ℤ)) = (e * 10 ^ 6).num :=
      Int.toNat_of_nonneg (h2 ▸ hmf)
    simp only [createEnergyField, defaultConfig]
    rw [h2, ← h1]
    exact_mod_cast h3
  · intro hden
    have h1 : ((e * 10 ^ 9).num : ℚ) = e * 10 ^ 9 := by
      rw [← Rat.den_eq_one_iff]
      exact hden
    have h2 : ⌊e * 10 ^ 9⌋ = (e * 10 ^ 9).num := by
      conv_lhs => rw [← h1, Int.floor_intCast]
    have h3 : (((e * 10 ^ 9).num.toNat : ℤ)) = (e * 10 ^ 9).num :=
      Int.toNat_of_nonneg (h2 ▸ hcf)
    simp only [createEnergyField, defaultConfig]
    rw [h2, ← h1]
    exact_mod_cast h3
  · norm_num [createEnergyField, defaultConfig]
    try decide
  · norm_num [createEnergyField, defaultConfig]
    try decide

/-- Claim C8, witness for the amended theorem at the spec's own scenario
`create_energy_field(100.0)`. -/
theorem C8_resource_scaling_witness :
    (0 : ℚ) ≤ 100 ∧
    (((createEnergyField defaultConfig entA 100 true).memory_bytes : ℤ) =
        ⌊(100 : ℚ) * 10 ^ 6⌋ ∧
      ((createEnergyField defaultConfig entA 100 true).cpu_cycles : ℤ) =
        ⌊(100 : ℚ) * 10 ^ 9⌋ ∧
      (((100 : ℚ) * 10 ^ 6).den = 1 →
        ((createEnergyField defaultConfig entA 100 true).memory_bytes : ℚ) =
          100 * 10 ^ 6) ∧
      (((100 : ℚ) * 10 ^ 9).den = 1 →
        ((createEnergyField defaultConfig entA 100 true).cpu_cycles : ℚ) =
          100 * 10 ^ 9) ∧
      (createEnergyField defaultConfig entA 100 true).memory_bytes = 100000000 ∧
      (createEnergyField defaultConfig entA 100 true).cpu_cycles = 100000000000) :=
  ⟨by norm_num, C8_resource_scaling entA true 100 (by norm_num)⟩

/-- A single-element round list performs exactly one `dissipateEnergyField`
call. -/
theorem engineDissipate_single (f : EnergyField) (t : ℚ) :
    engineDissipate f [t] = dissipateOnce f t := by
  show (if (dissipateOnce f t).energy_mev ≤ 0 then dissipateOnce f t
    else engineDissipate (dissipateOnce f t) []) = dissipateOnce f t
  split <;> rfl

/-- A dissipation round with zero elapsed time leaves a well-formed field
unchanged. -/
theorem dissipateOnce_zero (f : EnergyField) (hs : f.stability_factor = 1 - f.entropy_factor)
    (hs1 : f.entropy_factor ≤ 1) (he : 0 ≤ f.energy_mev) :
    dissipateOnce f 0 = f := by
  unfold dissipateOnce
  split
  · rfl
  · cases f
    simp_all [EnergyField.mk.injEq, min_eq_right hs1, max_eq_right he]

/-- Any number of zero-elapsed-time rounds leave a positive-energy fixed
point of `dissipateOnce · 0` unchanged. -/
theorem engineDissipate_replicate_zero (n : ℕ) (f : EnergyField)
    (h0 : dissipateOnce f 0 = f) (hpos : ¬f.energy_mev ≤ 0) :
    engineDissipate f (List.replicate n 0) = f := by
  induction n with
  | zero => rfl
  | succ n ih =>
      rw [List.replicate_succ]
      unfold engineDissipate
      rw [h0, if_neg hpos]
      exact ih

/-- One dissipation round never increases the energy of a well-formed
field. -/
theorem dissipateOnce_energy_le (f : EnergyField) (t : ℚ)
    (hInv : FieldInv f) (ht : 0 ≤ t) :
    (dissipateOnce f t).energy_mev ≤ f.energy_mev := by
  unfold dissipateOnce
  split
  · exact le_refl _
  · rename_i hpos
    have he : 0 < f.energy_mev := lt_of_not_le hpos
    have hd : 0 ≤ f.energy_mev * f.dissipation_rate * (1 + f.entropy_factor) * t := by
      have h5 : (0 : ℚ) ≤ 1 + f.entropy_factor := by
        have := hInv.2.2
        linarith
      have := hInv.2.1
      positivity
    exact max_le (le_of_lt he) (by linarith)

/-- One dissipation round preserves the field invariant. -/
theorem dissipateOnce_inv (f : EnergyField) (t : ℚ)
    (hInv : FieldInv f) (ht : 0 ≤ t) :
    FieldInv (dissipateOnce f t) := by
  unfold dissipateOnce
  split
  · exact hInv
  · refine ⟨le_max_left _ _, hInv.2.1, ?_⟩
    refine le_min (by norm_num) ?_
    have := hInv.2.2
    have h6 : 0 ≤ (1 : ℚ) / 1000 * t := by positivity
    linarith

/-- The engine-level dissipation loop preserves the field invariant. -/
theorem engineDissipate_inv (f : EnergyField) (ts : List ℚ)
    (hInv : FieldInv f) (hts : ∀ t ∈ ts, 0 ≤ t) :
    FieldInv (engineDissipate f ts) := by
  induction ts generalizing f with
  | nil => exact hInv
  | cons t rest ih =>
      have ht : 0 ≤ t := hts t (List.mem_cons_self _ _)
      have hrest : ∀ u ∈ rest, 0 ≤ u := fun u hu => hts u (List.mem_cons_of_mem _ hu)
      have h1 : FieldInv (dissipateOnce f t) := dissipateOnce_inv f t hInv ht
      show FieldInv (if (dissipateOnce f t).energy_mev ≤ 0 then dissipateOnce f t
        else engineDissipate (dissipateOnce f t) rest)
      split
      · exact h1
      · exact ih (dissipateOnce f t) h1 hrest

/-- The engine-level dissipation loop never increases the energy of a
well-formed field. -/
theorem engineDissipate_energy_le (f : EnergyField) (ts : List ℚ)
    (hInv : FieldInv f) (hts : ∀ t ∈ ts, 0 ≤ t) :
    (engineDissipate f ts).energy_mev ≤ f.energy_mev := by
  induction ts generalizing f with
  | nil => exact le_refl _
  | cons t rest ih =>
      have ht : 0 ≤ t := hts t (List.mem_cons_self _ _)
      have hrest : ∀ u ∈ rest, 0 ≤ u := fun u hu => hts u (List.mem_cons_of_mem _ hu)
      have h1 : FieldInv (dissipateOnce f t) := dissipateOnce_inv f t hInv ht
      have h2 : (dissipateOnce f t).energy_mev ≤ f.energy_mev :=
        dissipateOnce_energy_le f t hInv ht
      show (if (dissipateOnce f t).energy_mev ≤ 0 then dissipateOnce f t
        else engineDissipate (dissipateOnce f t) rest).energy_mev ≤ f.energy_mev
      split
      · exact h2
      · exact le_trans (ih (dissipateOnce f t) h1 hrest) h2

/-- Claim C2, counterexample.  A 1 MeV field put through 256 completed
dissipation rounds (zero elapsed time, so its state is unchanged and in
particular its energy is still positive) is NOT left alone by a further
`dissipateEnergyField` call: the 257th round still changes the energy
level.  The engine loop consults no cumulative-round counter — the struct
has none and `MAX_ENCRYPTION_ROUNDS` is referenced nowhere. -/
theorem C2_no_round_cap_counterexample :
    engineDissipate fieldA (List.replicate 256 0) = fieldA ∧
    (engineDissipate (engineDissipate fieldA (List.replicate 256 0)) [1]).energy_mev ≠
      (engineDissipate fieldA (List.replicate 256 0)).energy_mev := by
  have h0 : dissipateOnce fieldA 0 = fieldA := by
    apply dissipateOnce_zero <;> norm_num [fieldA]
  have h1 : engineDissipate fieldA (List.replicate 256 0) = fieldA :=
    engineDissipate_replicate_zero 256 fieldA h0 (by norm_num [fieldA])
  refine ⟨h1, ?_⟩
  rw [h1]
  norm_num [engineDissipate, dissipateOnce, fieldA]

/-- Claim C2, amended: `dissipateEnergyField(field, rounds)` runs its loop
with no cumulative cap; however many rounds have already been completed, a
further call on a field with positive energy, positive dissipation rate and
nonnegative entropy, with positive elapsed time, strictly decreases the
energy — it is never a no-op.  (The loop stops early only when the energy
reaches zero.) -/
theorem C2_dissipate_uncapped (f : EnergyField) (ts : List ℚ) (t : ℚ)
    (h1 : 0 < (engineDissipate f ts).energy_mev)
    (h2 : 0 < (engineDissipate f ts).dissipation_rate)
    (h3 : 0 ≤ (engineDissipate f ts).entropy_factor)
    (h4 : 0 < t) :
    (engineDissipate (engineDissipate f ts) [t]).energy_mev <
      (engineDissipate f ts).energy_mev := by
  rw [engineDissipate_single]
  set g := engineDissipate f ts with hg
  unfold dissipateOnce
  rw [if_neg (not_le.mpr h1)]
  have hd : 0 < g.energy_mev * g.dissipation_rate * (1 + g.entropy_factor) * t := by
    have h5 : (0 : ℚ) < 1 + g.entropy_factor := by linarith
    positivity
  exact max_lt h1 (by linarith)

/-- Claim C2, witness for the amended theorem: a fresh 1 MeV field (zero
prior rounds) loses energy on a one-round call with one second elapsed. -/
theorem C2_dissipate_uncapped_witness :
    0 < (engineDissipate fieldA []).energy_mev ∧
    0 < (engineDissipate fieldA []).dissipation_rate ∧
    0 ≤ (engineDissipate fieldA []).entropy_factor ∧
    (0 : ℚ) < 1 ∧
    (engineDissipate (engineDissipate fieldA []) [1]).energy_mev <
      (engineDissipate fieldA []).energy_mev :=
  ⟨by norm_num [engineDissipate, fieldA],
   by norm_num [engineDissipate, fieldA],
   by norm_num [engineDissipate, fieldA],
   by norm_num,
   C2_dissipate_uncapped fieldA [] 1
     (by norm_num [engineDissipate, fieldA])
     (by norm_num [engineDissipate, fieldA])
     (by norm_num [engineDissipate, fieldA])
     (by norm_num)⟩

/-- Claim C3: for a field with nonnegative energy, dissipation rate and
entropy (as produced by the allocator) and any sequence of dissipation
calls with nonnegative elapsed times, the energy level after each
successive call is monotonically non-increasing and never negative. -/
theorem C3_energy_monotone_nonneg (f : EnergyField) (calls : List (List ℚ))
    (hInv : FieldInv f)
    (hcalls : ∀ ts ∈ calls, ∀ t ∈ ts, 0 ≤ t) :
    List.Chain' (fun a b => b ≤ a)
      (List.map EnergyField.energy_mev (List.scanl engineDissipate f calls)) ∧
    ∀ g ∈ List.scanl engineDissipate f calls, 0 ≤ g.energy_mev := by
  induction calls generalizing f with
  | nil =>
      refine ⟨List.chain'_singleton _, ?_⟩
      intro g hg
      rw [List.scanl_nil, List.mem_singleton] at hg
      rw [hg]
      exact hInv.1
  | cons c cs ih =>
      have hc : ∀ t ∈ c, 0 ≤ t := hcalls c (List.mem_cons_self _ _)
      have hcs : ∀ ts ∈ cs, ∀ t ∈ ts, 0 ≤ t :=
        fun ts hts => hcalls ts (List.mem_cons_of_mem _ hts)
      have hInv1 : FieldInv (engineDissipate f c) := engineDissipate_inv f c hInv hc
      have hle : (engineDissipate f c).energy_mev ≤ f.energy_mev :=
        engineDissipate_energy_le f c hInv hc
      obtain ⟨ihc, ihm⟩ := ih (engineDissipate f c) hInv1 hcs
      constructor
      · rw [List.scanl_cons, List.singleton_append, List.map_cons]
        cases cs with
        | nil =>
            rw [List.scanl_nil, List.map_singleton]
            exact List.chain'_pair.mpr hle
        | cons c2 cs2 =>
            rw [List.scanl_cons, List.singleton_append, List.map_cons]
            rw [List.scanl_cons, List.singleton_append, List.map_cons] at ihc
            exact List.chain'_cons.mpr ⟨hle, ihc⟩
      · intro g hg
        rw [List.scanl_cons, List.singleton_append, List.mem_cons] at hg
        rcases hg with hg | hg
        · rw [hg]
          exact hInv.1
        · exact ihm g hg

/-- Claim C3, witness: a 1 MeV field through two dissipation calls of one
round each (1 s and 2 s elapsed). -/
theorem C3_energy_monotone_nonneg_witness :
    FieldInv fieldA ∧
    (∀ ts ∈ ([[1], [2]] : List (List ℚ)), ∀ t ∈ ts, 0 ≤ t) ∧
    (List.Chain' (fun a b => b ≤ a)
      (List.map EnergyField.energy_mev
        (List.scanl engineDissipate fieldA [[1], [2]])) ∧
     ∀ g ∈ List.scanl engineDissipate fieldA [[1], [2]], 0 ≤ g.energy_mev) :=
  ⟨by refine ⟨?_, ?_, ?_⟩ <;> norm_num [fieldA],
   by
     intro ts hts t ht
     fin_cases hts <;> simp_all,
   C3_energy_monotone_nonneg fieldA [[1], [2]]
     (by refine ⟨?_, ?_, ?_⟩ <;> norm_num [fieldA])
     (by
       intro ts hts t ht
       fin_cases hts <;> simp_all)⟩

/-- Claim C4, counterexample.  `stopContinuousSimulation` clears the flags
and joins the generator thread but never waits for the queue to drain: in
the interleaving where the generator enqueues one event, stop is called,
the generator exits, the join completes and no worker has yet woken, stop
has returned while the queue still holds the event. -/
theorem C4_stop_leaves_queue_counterexample :
    ctlRun ctlStartState ctlStopTrace =
      some ⟨[0], false, false, false, false, true⟩ ∧
    (⟨[0], false, false, false, false, true⟩ : EngineCtl).stop_returned = true ∧
    (⟨[0], false, false, false, false, true⟩ : EngineCtl).queue ≠ [] := by
  refine ⟨by decide, rfl, by decide⟩

/-- Claim C4, amended: both phases of `stopContinuousSimulation` (flag
clearing and the generator join) leave the shared event queue exactly as it
was — the queue is drained asynchronously by the worker pool, so a
subsequent `startContinuousSimulation` may begin with events still
queued. -/
theorem C4_stop_preserves_queue (s s1 : EngineCtl) (a : CtlAct)
    (ha : a = CtlAct.stopBegin ∨ a = CtlAct.stopJoin)
    (h : ctlStep s a = some s1) :
    s1.queue = s.queue := by
  rcases ha with ha | ha <;> subst ha
  · cases hc : s.continuous_active <;>
      simp only [ctlStep, hc, if_true, if_false, Bool.false_eq_true,
        Option.some.injEq] at h <;>
      subst h <;> rfl
  · cases hj : (s.stop_joining && !s.gen_alive) <;>
      simp only [ctlStep, hj, if_true, if_false, Bool.false_eq_true,
        Option.some.injEq] at h
    · exact absurd h (by simp)
    · subst h
      rfl

/-- Claim C4, witness: the flag-clearing phase of stop applied to a running
engine with an empty queue leaves the queue empty. -/
theorem C4_stop_preserves_queue_witness :
    (CtlAct.stopBegin = CtlAct.stopBegin ∨ CtlAct.stopBegin = CtlAct.stopJoin) ∧
    ctlStep ctlStartState CtlAct.stopBegin =
      some ⟨[], false, false, true, true, false⟩ ∧
    (⟨[], false, false, true, true, false⟩ : EngineCtl).queue = ctlStartState.queue :=
  ⟨Or.inl rfl, by decide,
   C4_stop_preserves_queue ctlStartState ⟨[], false, false, true, true, false⟩
     CtlAct.stopBegin (Or.inl rfl) (by decide)⟩

/-- The worker pool run: `total_events_simulated` is never touched, and the
number of energy fields created plus the queue length is conserved. -/
theorem runWorkers_counts (s : WorkerState) (sched : List ℕ) :
    (runWorkers s sched).total_events_simulated = s.total_events_simulated ∧
    (runWorkers s sched).total_energy_fields_created +
        (runWorkers s sched).queue.length =
      s.total_energy_fields_created + s.queue.length := by
  induction sched generalizing s with
  | nil => exact ⟨rfl, rfl⟩
  | cons w rest ih =>
      obtain ⟨h1, h2⟩ := ih (workerStep s)
      have hstep :
          (workerStep s).total_events_simulated = s.total_events_simulated ∧
          (workerStep s).total_energy_fields_created + (workerStep s).queue.length =
            s.total_energy_fields_created + s.queue.length := by
        cases hq : s.queue with
        | nil => simp [workerStep, hq]
        | cons x xs =>
            refine ⟨?_, ?_⟩ <;> (simp [workerStep, hq]; try omega)
      show (runWorkers (workerStep s) rest).total_events_simulated =
          s.total_events_simulated ∧
        (runWorkers (workerStep s) rest).total_energy_fields_created +
            (runWorkers (workerStep s) rest).queue.length =
          s.total_energy_fields_created + s.queue.length
      exact ⟨by rw [h1, hstep.1], by rw [h2, hstep.2]⟩

/-- Claim C9, counterexample.  One worker drains a queue of M = 1 events;
afterwards the queue is empty but `total_events_simulated` is 0, not 1: the
worker path (`processFissionEvent`) increments only
`total_energy_fields_created`, while `total_events_simulated` is bumped
solely by the direct synchronous `simulateTernaryFissionEvent` path. -/
theorem C9_events_counter_counterexample :
    (runWorkers ⟨[0], 0, 0⟩ [0]).queue = [] ∧
    (runWorkers ⟨[0], 0, 0⟩ [0]).total_events_simulated = 0 ∧
    (runWorkers ⟨[0], 0, 0⟩ [0]).total_events_simulated ≠ 1 := by
  decide

/-- Claim C9, amended: with any number of workers draining M queued events
under any schedule and no concurrent direct calls, once the queue is fully
drained `total_energy_fields_created` has increased by exactly M (no lost
or double-counted updates), while `total_events_simulated` is unchanged —
it counts only direct synchronous simulate calls. -/
theorem C9_drain_counts (q : List ℕ) (e0 f0 : ℕ) (sched : List ℕ)
    (hdrain : (runWorkers ⟨q, e0, f0⟩ sched).queue = []) :
    (runWorkers ⟨q, e0, f0⟩ sched).total_events_simulated = e0 ∧
    (runWorkers ⟨q, e0, f0⟩ sched).total_energy_fields_created = f0 + q.length := by
  obtain ⟨h1, h2⟩ := runWorkers_counts ⟨q, e0, f0⟩ sched
  rw [hdrain] at h2
  simp at h2
  exact ⟨h1, by omega⟩

/-- Claim C9, witness: one worker drains one queued event; one field is
created and the events counter is untouched. -/
theorem C9_drain_counts_witness :
    (runWorkers ⟨[7], 0, 0⟩ [0]).queue = [] ∧
    (runWorkers ⟨[7], 0, 0⟩ [0]).total_events_simulated = 0 ∧
    (runWorkers ⟨[7], 0, 0⟩ [0]).total_energy_fields_created = 0 + [7].length :=
  ⟨by decide,
   (C9_drain_counts [7] 0 0 [0] (by decide)).1,
   (C9_drain_counts [7] 0 0 [0] (by decide)).2⟩

/-- Claim C10: every generated event satisfies
`binding_energy_released = q_value - total_kinetic_energy` exactly, by
construction, and no later step of event generation modifies the three
fields. -/
theorem C10_binding_energy_identity (pm ex : ℚ) (o : GenOracle) :
    (generateFissionEvent pm ex o).binding_energy_released =
      (generateFissionEvent pm ex o).q_value -
        (generateFissionEvent pm ex o).total_kinetic_energy := rfl

end TernaryFission
